import Mathlib

/-!
Verification of the cricketpy data-normalization pipeline.

Shallow embedding of the core logic of `countries.py`, `helpers.py`,
`fetch_cricinfo.py` and `fetch_cricsheet.py`: country-name canonicalization
by ordered regular-expression substitution, type coercion of tabular
columns, the participation classifier, the bowling-economy recomputation,
the ball-by-ball reshaper and the match-metadata pivoter.  Python strings
are Lean `String`s, missing values (`NaN`) are `Option.none`, floats are
modelled as `ℚ`, and fallible pandas operations return `Except`.
-/

namespace Cricketpy

/-! ### Generic string helpers -/

/-- Lower-case every character of a string (`str.lower`). -/
def lowerStr (s : String) : String := ⟨s.data.map Char.toLower⟩

/-- Boolean prefix test on character lists. -/
def isPrefixB : List Char → List Char → Bool
  | [], _ => true
  | _ :: _, [] => false
  | a :: as, b :: bs => a == b && isPrefixB as bs

/-- Boolean substring (contiguous infix) test on character lists. -/
def isInfixB (p : List Char) : List Char → Bool
  | [] => isPrefixB p []
  | l@(_ :: rest) => isPrefixB p l || isInfixB p rest

/-- Case-insensitive substring containment, the semantics of
`Series.str.contains(pat, case=False)` on a non-null value. -/
def containsCI (s pat : String) : Bool :=
  isInfixB (pat.data.map Char.toLower) (s.data.map Char.toLower)

/-- Strip leading and trailing whitespace (`str.strip`). -/
def stripStr (s : String) : String :=
  ⟨((s.data.dropWhile Char.isWhitespace).reverse.dropWhile Char.isWhitespace).reverse⟩

/-! ### Participation classifier (`fetch_cricinfo.participation_status`)

The source checks, via nested `np.where`, the conditions
`contains "absent"`, `contains "dnb"`, `contains "tdnb"`, `contains "sub"`
(case-insensitively, `na=False`) in that order and returns the first
matching label, defaulting to `"b"`.  A missing value (`None`) matches no
condition and yields `"b"`. -/

/-- Participation label of a single cell, from `participation_status`. -/
def participation_status_value (v : Option String) : String :=
  match v with
  | none => "b"
  | some s =>
    if containsCI s "absent" then "absent"
    else if containsCI s "dnb" then "dnb"
    else if containsCI s "tdnb" then "tdnb"
    else if containsCI s "sub" then "sub"
    else "b"

/-- `participation_status` applied to a whole column. -/
def participation_status (col : List (Option String)) : List String :=
  col.map participation_status_value

/-! ### Country normalizer (`countries.rename_country`)

The source applies 34 `(pattern, replacement)` pairs by sequential
`re.sub`.  The patterns use only literal characters, alternation `|`, the
anchors `^` and `$`, and the two-character sequence `\\.` which — inside a
raw Python string — denotes a literal backslash followed by the wildcard
`.` (one arbitrary character).  The embedding represents exactly this
fragment of regular expressions. -/

/-- A regex token: a literal character or the wildcard `.`. -/
inductive RTok where
  | lit (c : Char)
  | any
deriving DecidableEq

/-- One alternative of a pattern: optional `^` anchor, a token sequence,
optional `$` anchor. -/
structure ReAlt where
  anchorStart : Bool
  toks : List RTok
  anchorEnd : Bool

/-- A substitution rule: an alternation of alternatives plus the
replacement string. -/
structure ReRule where
  alts : List ReAlt
  repl : String

/-- Literal token sequence for a plain pattern fragment. -/
def lits (s : String) : List RTok := s.data.map RTok.lit

/-- Unanchored literal alternative. -/
def altOf (s : String) : ReAlt := ⟨false, lits s, false⟩

/-- Literal alternative anchored at the end (`X$`). -/
def altEndOf (s : String) : ReAlt := ⟨false, lits s, true⟩

/-- Literal alternative anchored at the start (`^X`). -/
def altBegOf (s : String) : ReAlt := ⟨true, lits s, false⟩

/-- The tokens of `\\.` in a raw Python pattern: a literal backslash
followed by the wildcard. -/
def bsDot : List RTok := [RTok.lit '\\', RTok.any]

/-- Match a token sequence against the front of a character list,
returning the unconsumed remainder on success. -/
def matchToks : List RTok → List Char → Option (List Char)
  | [], rest => some rest
  | _ :: _, [] => none
  | RTok.lit c :: ts, x :: xs => if x == c then matchToks ts xs else none
  | RTok.any :: ts, _ :: xs => matchToks ts xs

/-- Try one alternative at the current position; `atStart` records whether
the position is the beginning of the string (for `^`).  Returns the number
of characters consumed. -/
def tryAlt (atStart : Bool) (a : ReAlt) (chars : List Char) : Option Nat :=
  if a.anchorStart && !atStart then none
  else
    match matchToks a.toks chars with
    | none => none
    | some rest =>
      if a.anchorEnd && !rest.isEmpty then none
      else some (chars.length - rest.length)

/-- Try the alternatives in order at the current position (Python
alternation semantics: the first alternative that matches wins). -/
def tryAlts (alts : List ReAlt) (atStart : Bool) (chars : List Char) : Option Nat :=
  match alts with
  | [] => none
  | a :: rest =>
    match tryAlt atStart a chars with
    | some n => some n
    | none => tryAlts rest atStart chars

/-- Left-to-right scan of `re.sub`: at each position try the alternatives;
on a match emit the replacement and resume after the matched text (the
replacement itself is not rescanned), otherwise keep the character.  The
fuel argument makes the recursion structural; every step consumes at least
one character, so fuel equal to the string length never runs out. -/
def scanSub (alts : List ReAlt) (repl : List Char) : Nat → Bool → List Char → List Char
  | 0, _, l => l
  | _ + 1, _, [] => []
  | fuel + 1, atStart, c :: cs =>
    match tryAlts alts atStart (c :: cs) with
    | some n => repl ++ scanSub alts repl fuel false (cs.drop (n - 1))
    | none => c :: scanSub alts repl fuel false cs

/-- `re.sub(pattern, replacement, s)` for one rule. -/
def reSub (r : ReRule) (s : String) : String :=
  ⟨scanSub r.alts r.repl.data s.data.length true s.data⟩

/-- The ordered rule table of `rename_country`, transcribed pattern by
pattern from `countries.py`. -/
def countryRules : List ReRule := [
  ⟨[altOf "AFG"], "Afghanistan"⟩,
  ⟨[altEndOf "Afr"], "Africa XI"⟩,
  ⟨[altOf "AUS"], "Australia"⟩,
  ⟨[altOf "Bdesh", altOf "BDESH", altOf "BD"], "Bangladesh"⟩,
  ⟨[altOf "BMUDA"], "Bermuda"⟩,
  ⟨[altOf "CAN"], "Canada"⟩,
  ⟨[altOf "DnWmn", altOf "Denmk"], "Denmark"⟩,
  ⟨[altOf "EAf"], "East (and Central) Africa"⟩,
  ⟨[altOf "ENG"], "England"⟩,
  ⟨[altOf "HKG"], "Hong Kong"⟩,
  ⟨[altEndOf "ICC"], "ICC World XI"⟩,
  ⟨[altOf "INDIA", altOf "IND"], "India"⟩,
  ⟨[altOf "IntWn", altOf "Int XI"], "International XI"⟩,
  ⟨[altEndOf "Ire", altOf "IRELAND", altOf "IRE"], "Ireland"⟩,
  ⟨[altOf "JamWn"], "Jamaica"⟩,
  ⟨[altOf "JPN"], "Japan"⟩,
  ⟨[altOf "KENYA"], "Kenya"⟩,
  ⟨[altOf "NAM"], "Namibia"⟩,
  ⟨[altOf "NEPAL"], "Nepal"⟩,
  ⟨[altEndOf "Neth", altOf "NL"], "Netherlands"⟩,
  ⟨[altOf "NZ"], "New Zealand"⟩,
  ⟨[altOf "OMAN"], "Oman"⟩,
  ⟨[altOf "PAK"], "Pakistan"⟩,
  ⟨[altOf "PNG", ⟨false, lits "P" ++ bsDot ++ lits "N" ++ bsDot ++ lits "G" ++ bsDot, false⟩],
    "Papua New Guinea"⟩,
  ⟨[altBegOf "SA"], "South Africa"⟩,
  ⟨[altOf "SCOT", altOf "SCO", altEndOf "Scot"], "Scotland"⟩,
  ⟨[altOf "SL"], "Sri Lanka"⟩,
  ⟨[altOf "TTWmn", altOf "T & T"], "Trinidad and Tobago"⟩,
  ⟨[altOf "UAE", ⟨false, lits "U" ++ bsDot ++ lits "A" ++ bsDot ++ lits "E" ++ bsDot, false⟩],
    "United Arab Emirates"⟩,
  ⟨[altOf "USA", ⟨false, lits "U" ++ bsDot ++ lits "S" ++ bsDot ++ lits "A" ++ bsDot, false⟩],
    "United States of America"⟩,
  ⟨[altEndOf "World", altOf "World-XI"], "World XI"⟩,
  ⟨[altOf "WI"], "West Indies"⟩,
  ⟨[altOf "YEWmn", ⟨false, lits "Y" ++ bsDot ++ lits " Eng", false⟩], "Young England"⟩,
  ⟨[altOf "ZIM"], "Zimbabwe"⟩]

/-- `rename_country`: the 34 substitutions applied in sequence, each to the
output of the previous one. -/
def rename_country (country : String) : String :=
  countryRules.foldl (fun s r => reSub r s) country

/-- Whether a rule matches somewhere in a string (`re.search` succeeds). -/
def existsMatchAux (alts : List ReAlt) : Bool → List Char → Bool
  | _, [] => false
  | atStart, c :: cs =>
    (tryAlts alts atStart (c :: cs)).isSome || existsMatchAux alts false cs

/-- A token matches at least one country-normalizer rule. -/
def matchesSomeRule (s : String) : Bool :=
  countryRules.any (fun r => existsMatchAux r.alts true s.data)

/-- The plain-literal trigger alternatives of the rule table (the
alternatives containing a backslash or wildcard are omitted: no plain
country token contains a backslash). -/
def triggerTokens : List String :=
  ["AFG", "Afr", "AUS", "Bdesh", "BDESH", "BD", "BMUDA", "CAN", "DnWmn",
   "Denmk", "EAf", "ENG", "HKG", "ICC", "INDIA", "IND", "IntWn", "Int XI",
   "Ire", "IRELAND", "IRE", "JamWn", "JPN", "KENYA", "NAM", "NEPAL", "Neth",
   "NL", "NZ", "OMAN", "PAK", "PNG", "SA", "SCOT", "SCO", "Scot", "SL",
   "TTWmn", "T & T", "UAE", "USA", "World", "World-XI", "WI", "YEWmn", "ZIM"]

/-! ### Country tables and team resolution (`countries.py`, `fetch_cricinfo.py`)

`men` and `women` map an integer team code to the country display name —
the keys are integers, the values strings.  The team-resolution fragment
of `fetch_cricinfo` runs
`get_close_matches(country.lower(), map(str.lower, country_sex.keys()), n=1, cutoff=0.5)`
and then `country_sex[country_match[0].title()]`.  To capture the dynamic
typing faithfully, dictionary keys are embedded as `PyVal`s and `str.lower`
as the fallible method it is: applied to an integer it raises `TypeError`.
`difflib.get_close_matches` is stdlib code external to the repository; the
theorems quantify over an arbitrary matcher, so nothing depends on its
behaviour. -/

/-- A Python value: an integer or a string. -/
inductive PyVal where
  | int (n : Nat)
  | str (s : String)
deriving DecidableEq

/-- `str.lower` as an unbound method: fails with `TypeError` when the
argument is not a string. -/
def py_str_lower : PyVal → Except String String
  | PyVal.str s => Except.ok (lowerStr s)
  | PyVal.int _ => Except.error "TypeError: descriptor lower requires a str object"

/-- `str.title`: upper-case a letter that does not follow a letter,
lower-case the rest. -/
def pyTitleAux : Bool → List Char → List Char
  | _, [] => []
  | prevAlpha, c :: cs =>
    (if prevAlpha then c.toLower else c.toUpper) :: pyTitleAux c.isAlpha cs

/-- `str.title()` on a whole string. -/
def pyTitle (s : String) : String := ⟨pyTitleAux false s.data⟩

/-- The `men` table of `countries.py`: team code to country name. -/
def men : List (Nat × String) :=
  [(1, "England"), (2, "Australia"), (3, "South Africa"), (4, "West Indies"),
   (5, "New Zealand"), (6, "India"), (7, "Pakistan"), (8, "Sri Lanka"),
   (9, "Zimbabwe"), (11, "United States of America"), (12, "Bermuda"),
   (14, "East Africa"), (15, "Netherlands"), (17, "Canada"), (19, "Hong Kong"),
   (20, "Papua New Guinea"), (25, "Bangladesh"), (26, "Kenya"),
   (27, "United Arab Emirates"), (28, "Namibia"), (29, "Ireland"),
   (30, "Scotland"), (32, "Nepal"), (37, "Oman"), (40, "Afghanistan")]

/-- The `women` table of `countries.py`. -/
def women : List (Nat × String) :=
  [(289, "Australia"), (1026, "England"), (1863, "India"), (4240, "Bangladesh"),
   (3379, "South Africa"), (3672, "Sri Lanka"), (2614, "New Zealand"),
   (2285, "Ireland"), (3022, "Pakistan"), (2461, "Netherlands"),
   (3867, "West Indies"), (825, "Denmark"), (3808, "Jamaica"), (2331, "Japan"),
   (3505, "Scotland"), (3843, "Trinidad & Tobago")]

/-- Force `map(str.lower, keys)`: the lazy `map` object is consumed by
`get_close_matches`, which applies `str.lower` to each key in turn and
propagates the first exception. -/
def lowerAllKeys : List PyVal → Except String (List String)
  | [] => Except.ok []
  | v :: rest =>
    match py_str_lower v with
    | Except.error e => Except.error e
    | Except.ok s => (lowerAllKeys rest).map (fun l => s :: l)

/-- The country-to-team-code resolution fragment of `fetch_cricinfo`
(lines 452–465), parameterized over the external `get_close_matches`
collaborator.  Step by step from the source: the candidate set is
`map(str.lower, country_sex.keys())`, which forces `str.lower` on each
integer key when the matcher iterates it; a successful match would then be
title-cased and tested for membership among the (integer) keys, and looked
up to produce the `(canonical_name, team_code)` pair. -/
def resolve_country (matcher : String → List String → Option String)
    (country : String) (sex : String) : Except String (String × Nat) :=
  let country_sex := if sex == "men" then men else women
  match lowerAllKeys (country_sex.map (fun kv => PyVal.int kv.1)) with
  | Except.error e => Except.error e
  | Except.ok lowered =>
    match matcher (lowerStr country) lowered with
    | none => Except.error "ValueError: Country not found"
    | some m =>
      match country_sex.find? (fun kv => PyVal.int kv.1 == PyVal.str (pyTitle m)) with
      | some kv => Except.ok (kv.2, kv.1)
      | none => Except.error "ValueError: Country not found"

/-! ### Type coercion (`helpers.py`)

A column is a list of cells; a missing cell (`NaN`/`None`) is `none`.
`string_to_float` strips each string cell, replaces the empty string by
missing and attempts a whole-column numeric parse, keeping the column
textual if any cell fails to parse.  `float_to_int` narrows a float column
to integers when `float.is_integer` holds of every cell — `NaN.is_integer()`
is `False`, so a column with a missing value is never narrowed.
`dtype_clean` composes the two (its date handling applies only to columns
whose name contains "date" and is outside the claims considered here). -/

/-- A pandas column in one of the three representations the helpers
produce: text (`object`), floating point, or integer. -/
inductive PyCol where
  | s (cells : List (Option String))
  | f (cells : List (Option ℚ))
  | i (cells : List Int)
deriving DecidableEq

/-- Whether the column has an integer dtype. -/
def PyCol.isIntCol : PyCol → Bool
  | PyCol.i _ => true
  | _ => false

/-- `float(s)` on a decimal literal: optional sign, digits, optional
fractional part.  Returns `none` when Python would raise `ValueError`. -/
def parseFloat (s : String) : Option ℚ :=
  let cs := s.data
  let signed : Bool × List Char :=
    match cs with
    | '-' :: t => (true, t)
    | '+' :: t => (false, t)
    | _ => (false, cs)
  let ip := signed.2.takeWhile Char.isDigit
  let rest := signed.2.dropWhile Char.isDigit
  let ipVal : ℚ := (ip.foldl (fun a c => a * 10 + (c.toNat - 48)) 0 : ℕ)
  match rest with
  | [] =>
    if ip.isEmpty then none
    else some (if signed.1 then -ipVal else ipVal)
  | '.' :: fr =>
    let fp := fr.takeWhile Char.isDigit
    let rest2 := fr.dropWhile Char.isDigit
    if rest2.isEmpty && !(ip.isEmpty && fp.isEmpty) then
      let fpVal : ℚ := ((fp.foldl (fun a c => a * 10 + (c.toNat - 48)) 0 : ℕ) : ℚ) /
        ((10 : ℚ) ^ fp.length)
      some (if signed.1 then -(ipVal + fpVal) else ipVal + fpVal)
    else none
  | _ => none

/-- Parse every non-missing cell of a column; `none` exactly when some
cell raises `ValueError` (the `except` branch of `col_string_to_float`). -/
def parseAllCells : List (Option String) → Option (List (Option ℚ))
  | [] => some []
  | none :: rest => (parseAllCells rest).map (fun l => none :: l)
  | some s :: rest =>
    match parseFloat s, parseAllCells rest with
    | some q, some l => some (some q :: l)
    | _, _ => none

/-- `string_to_float` on one column: strip, replace `""` by missing, then
attempt the whole-column float conversion with fallback to the (stripped)
text column. -/
def string_to_float (col : PyCol) : PyCol :=
  match col with
  | PyCol.s cells =>
    let stripped := cells.map (fun v => v.map stripStr)
    let replaced := stripped.map (fun v =>
      match v with
      | some s => if s == "" then none else some s
      | none => none)
    match parseAllCells replaced with
    | some qs => PyCol.f qs
    | none => PyCol.s replaced
  | other => other

/-- `float.is_integer` of a cell: `False` for `NaN`. -/
def cellIsInteger : Option ℚ → Bool
  | none => false
  | some q => q.den == 1

/-- `float_to_int` on one column: narrow to integers when every cell
satisfies `float.is_integer`. -/
def float_to_int (col : PyCol) : PyCol :=
  match col with
  | PyCol.f cells =>
    if cells.all cellIsInteger then
      PyCol.i (cells.map (fun v => (v.getD 0).num))
    else PyCol.f cells
  | other => other

/-- `dtype_clean` on one (non-date-named) column. -/
def dtype_clean (col : PyCol) : PyCol := float_to_int (string_to_float col)

/-! ### Bowling economy recomputation (`fetch_cricinfo.clean_bowling_data`)

Lines 285–293 of the source: `economy = runs / (balls / 6)`;
`different = np.abs(round(economy, 2) - df["economy"]) > 0.05`;
`df["economy"] = np.where(different, df["economy"], economy)` — when the
rounded recomputed value differs from the reported one by more than the
threshold the reported value is kept, otherwise the recomputed value
replaces it.  `np.round` rounds half to even. -/

/-- Round half to even to the nearest integer (`np.round` semantics on an
exact rational). -/
def roundHalfEven (x : ℚ) : Int :=
  let f := x.floor
  let r := x - f
  if r < 1 / 2 then f
  else if 1 / 2 < r then f + 1
  else if f % 2 == 0 then f else f + 1

/-- `round(x, 2)`: round half to even at two decimal places. -/
def round2 (x : ℚ) : ℚ := (roundHalfEven (x * 100) : ℚ) / 100

/-- The threshold of the economy recomputation. -/
def economyThreshold : ℚ := 5 / 100

/-- The per-row economy update of `clean_bowling_data`: given the numeric
`runs`, `balls` and originally-reported `economy` of a row, produce the
resulting economy value. -/
def clean_bowling_economy (runs balls economy : ℚ) : ℚ :=
  let economy2 := runs / (balls / 6)
  let different := |round2 economy2 - economy| > economyThreshold
  if different then economy else economy2

/-! ### Ball-by-ball reshaper (`fetch_cricsheet.cleaning_bbb_t20_cricsheet`)

One `Delivery` per input row, carrying the columns the derivations read
(the remaining raw cricsheet columns — season, venue, teams, players,
extras breakdowns — are always present in the raw frame and pass through
unchanged).  The pandas `groupby` cumulations group by key irrespective of
row contiguity, so every cumulative value at row `i` is a fold over the
prefix up to and including `i` restricted to the row's group.

The innings-totals pivot creates one column per distinct innings value and
keeps, after renaming, only `innings1_total` and `innings2_total`; if no
match in the input has an innings-1 row the column `innings1_total` does
not exist and `df["innings1_total"] + 1` raises `KeyError`, and if no
match has an innings-2 row the final reorder `df[column_order]` raises
`KeyError` on `innings2_total`. -/

/-- A raw delivery row (the columns read by the reshaper). -/
structure Delivery where
  match_id : String
  innings : Nat
  ball : ℚ
  runs_off_bat : Nat
  extras : Nat
  wides : Option ℚ
  noballs : Option ℚ
  wicket_type : Option String
deriving DecidableEq, Inhabited

/-- Ceiling of a rational (`np.ceil`). -/
def ceilQ (q : ℚ) : Int := -((-q).floor)

/-- `wicket = wicket_type.notna() & ~wicket_type.isin(["retired hurt"])`. -/
def wicketOf (d : Delivery) : Bool :=
  d.wicket_type.isSome && !(d.wicket_type == some "retired hurt")

/-- `over = np.ceil(ball)`. -/
def overOf (d : Delivery) : Int := ceilQ d.ball

/-- Same `(match_id, innings)` group. -/
def sameInningsGroup (a b : Delivery) : Bool :=
  a.match_id == b.match_id && a.innings == b.innings

/-- Same `(match_id, innings, over)` group. -/
def sameOverGroup (a b : Delivery) : Bool :=
  sameInningsGroup a b && overOf a == overOf b

/-- An output row of the reshaper (the derived columns). -/
structure BBBRow where
  match_id : String
  innings : Nat
  over : Int
  ball : Nat
  extra_ball : Nat
  ball_in_over : Int
  balls_remaining : Int
  runs_scored_yet : Nat
  wicket : Bool
  wickets_lost_yet : Nat
  innings1_total : Option Nat
  innings2_total : Option Nat
  target : Option Nat
deriving DecidableEq, Inhabited

/-- Sum of `runs_off_bat + extras` over the rows of `(m, inn)`; `none`
when the match has no row of that innings (the pivoted cell is `NaN`). -/
def inningsTotal (rows : List Delivery) (m : String) (inn : Nat) : Option Nat :=
  let l := rows.filter (fun r => r.match_id == m && r.innings == inn)
  if l.isEmpty then none
  else some (l.foldl (fun a r => a + r.runs_off_bat + r.extras) 0)

/-- The derived columns of row `i` (whose delivery is `d`, with
`rows.get? i = some d`). -/
def mkRow (rows : List Delivery) (i : Nat) (d : Delivery) : BBBRow :=
  let pre := rows.take (i + 1)
  let grpInn := pre.filter (fun q => sameInningsGroup q d)
  let grpOver := pre.filter (fun q => sameOverGroup q d)
  let ballNum := grpOver.length
  let extraCum := (grpOver.filter (fun q => q.wides.isSome || q.noballs.isSome)).length
  let bio : Int := (ballNum : Int) - (extraCum : Int)
  let i1 := inningsTotal rows d.match_id 1
  { match_id := d.match_id
    innings := d.innings
    over := overOf d
    ball := ballNum
    extra_ball := extraCum
    ball_in_over := bio
    balls_remaining :=
      if d.innings == 1 || d.innings == 2 then
        120 - ((overOf d - 1) * 6 + bio)
      else 6 - bio
    runs_scored_yet := grpInn.foldl (fun a r => a + r.runs_off_bat + r.extras) 0
    wicket := wicketOf d
    wickets_lost_yet := (grpInn.filter wicketOf).length
    innings1_total := i1
    innings2_total := inningsTotal rows d.match_id 2
    target := i1.map (· + 1) }

/-- The per-row output of the reshaper on the whole input. -/
def cleanRows (rows : List Delivery) : List BBBRow :=
  rows.enum.map (fun p => mkRow rows p.1 p.2)

/-- `cleaning_bbb_t20_cricsheet`: fails with `KeyError` when the pivoted
innings-totals table lacks the `innings1_total` column (read by the target
computation) or the `innings2_total` column (required by the final column
reorder), in that evaluation order; otherwise produces the derived rows. -/
def cleaning_bbb_t20_cricsheet (rows : List Delivery) : Except String (List BBBRow) :=
  if rows.all (fun r => !(r.innings == 1)) then
    Except.error "KeyError: innings1_total"
  else if rows.all (fun r => !(r.innings == 2)) then
    Except.error "KeyError: innings2_total"
  else Except.ok (cleanRows rows)

/-! ### Match/player metadata pivoter (`fetch_cricsheet.process_match_metadata`,
`fetch_cricsheet.process_metadata`) -/

/-- A long-format metadata row. -/
structure MetaRow where
  match_id : String
  key : String
  value : String
deriving DecidableEq, Inhabited

/-- Drop the rows handled by the player-extraction path. -/
def dropPlayerKeys (rows : List MetaRow) : List MetaRow :=
  rows.filter (fun r => !(r.key == "player" || r.key == "players" || r.key == "registry"))

/-- Rewrite every row whose key is `keyname` to `keyname ++ n`, where `n`
is the per-match running count of `keyname` rows up to and including the
row (the `groupby(match_id).cumsum()` of the source). -/
def renumberKey (keyname : String) (rows : List MetaRow) : List MetaRow :=
  rows.enum.map (fun p =>
    let r := p.2
    if r.key == keyname then
      { r with key := keyname ++ toString (((rows.take (p.1 + 1)).filter
          (fun q => q.match_id == r.match_id && q.key == keyname)).length) }
    else r)

/-- `drop_duplicates(["match_id", "key"], keep="first")`. -/
def dedupGo (seen : List (String × String)) : List MetaRow → List MetaRow
  | [] => []
  | r :: rest =>
    if (r.match_id, r.key) ∈ seen then dedupGo seen rest
    else r :: dedupGo ((r.match_id, r.key) :: seen) rest

/-- Keep the first row of every `(match_id, key)` pair. -/
def dedupFirst (rows : List MetaRow) : List MetaRow := dedupGo [] rows

/-- The columns the final reorder of `process_match_metadata` indexes
(besides `match_id`, the pivot index): the reorder raises `KeyError` if
any is absent from the pivoted table. -/
def requiredMetaCols : List String :=
  ["team1", "team2", "gender", "season", "date", "event", "match_number",
   "venue", "city", "balls_per_over", "toss_winner", "toss_decision",
   "player_of_match"]

/-- The cell relation of the pivoted table: the deduplicated, renumbered,
filtered rows (each surviving `(match_id, key)` pair is unique, so it
determines the pivot). -/
def metadataCells (rows : List MetaRow) : List MetaRow :=
  dedupFirst ((renumberKey "umpire" (renumberKey "team" (dropPlayerKeys rows))).filter
    (fun r => !(r.key == "umpire3")))

/-- `process_match_metadata`. -/
def process_match_metadata (rows : List MetaRow) : Except String (List MetaRow) :=
  let cells := metadataCells rows
  if requiredMetaCols.all (fun c => cells.any (fun r => r.key == c)) then
    Except.ok cells
  else Except.error "KeyError: missing metadata column"

/-- Value of the pivoted table at `(m, k)`; `none` is the `NaN` cell. -/
def pivotGet (cells : List MetaRow) (m k : String) : Option String :=
  (cells.find? (fun r => r.match_id == m && r.key == k)).map (fun r => r.value)

/-- A row of the `_info` CSVs as read by `process_metadata` (columns
`info, key, value, player, hash` plus the assigned `match_id`; the
`player` column may be `NaN`). -/
structure InfoRow where
  match_id : String
  key : String
  value : String
  player : Option String
deriving DecidableEq, Inhabited

/-- A row of the player-extraction output. -/
structure PlayerRow where
  match_id : String
  team : String
  player : Option String
deriving DecidableEq, Inhabited

/-- The two possible shapes of the `process_metadata` result. -/
inductive MetaResult where
  | matchTable (t : Except String (List MetaRow))
  | playerTable (l : List PlayerRow)

/-- The branch condition `type == "match"` of `process_metadata`: the
function has no parameter or local named `type`, so the name resolves to
the Python builtin class `type`, and a class never compares equal to a
string — the comparison is `False` for every call. -/
def pyBuiltinTypeEqStr (s : String) : Bool := false

/-- The player-extraction path: keep rows whose key is `player` or
`players`, select `match_id`, `value` (renamed `team`) and `player`. -/
def extract_players (rows : List InfoRow) : List PlayerRow :=
  (rows.filter (fun r => r.key == "player" || r.key == "players")).map
    (fun r => ⟨r.match_id, r.value, r.player⟩)

/-- Forget the player column (the shape `process_match_metadata` reads). -/
def toMetaRow (r : InfoRow) : MetaRow := ⟨r.match_id, r.key, r.value⟩

/-- `process_metadata`, parameterized by the data type the caller of
`fetch_cricsheet` requested (which the source never consults). -/
def process_metadata (requestedType : String) (rows : List InfoRow) : MetaResult :=
  if pyBuiltinTypeEqStr "match" then
    MetaResult.matchTable (process_match_metadata (rows.map toMetaRow))
  else
    MetaResult.playerTable (extract_players rows)

/-! ### Concrete example inputs used by the claim theorems -/

/-- A match with innings totals 180 and 150. -/
def exC6 : List Delivery :=
  [⟨"m1", 1, mkRat 1 10, 90, 0, none, none, none⟩,
   ⟨"m1", 1, mkRat 2 10, 89, 1, none, none, none⟩,
   ⟨"m1", 2, mkRat 1 10, 75, 0, none, none, none⟩,
   ⟨"m1", 2, mkRat 2 10, 74, 1, none, none, some "bowled"⟩]

/-- The reshaped rows of `exC6`. -/
def exC6out : List BBBRow := cleanRows exC6

/-- The first reshaped row of `exC6`. -/
def exC6r0 : BBBRow := exC6out.headD default

/-- Six consecutive legal deliveries in over 1 of innings 1 (plus the
second innings required for the reshaper to complete). -/
def exC7 : List Delivery :=
  [⟨"m1", 1, mkRat 1 10, 1, 0, none, none, none⟩,
   ⟨"m1", 1, mkRat 2 10, 0, 0, none, none, none⟩,
   ⟨"m1", 1, mkRat 3 10, 4, 0, none, none, none⟩,
   ⟨"m1", 1, mkRat 4 10, 0, 0, none, none, some "caught"⟩,
   ⟨"m1", 1, mkRat 5 10, 2, 0, none, none, none⟩,
   ⟨"m1", 1, mkRat 6 10, 6, 0, none, none, none⟩,
   ⟨"m1", 2, mkRat 1 10, 0, 1, none, none, none⟩]

/-- The reshaped rows of `exC7`. -/
def exC7out : List BBBRow := cleanRows exC7

/-- The first reshaped row of `exC7`. -/
def exC7r0 : BBBRow := exC7out.headD default

/-- An input whose only match has a single recorded innings. -/
def exC5single : List Delivery :=
  [⟨"b1", 1, mkRat 1 10, 4, 0, none, none, none⟩,
   ⟨"b1", 1, mkRat 2 10, 6, 0, none, none, none⟩]

/-- A two-innings match `a1` together with a one-innings match `b1`. -/
def exC5mixed : List Delivery :=
  [⟨"a1", 1, mkRat 1 10, 10, 0, none, none, none⟩,
   ⟨"a1", 2, mkRat 1 10, 8, 0, none, none, none⟩,
   ⟨"b1", 1, mkRat 1 10, 4, 1, none, none, none⟩]

/-- The reshaped rows of `exC5mixed`. -/
def exC5out : List BBBRow := cleanRows exC5mixed

/-- Metadata rows of one match: two teams, three umpires, and every key
the final reorder requires. -/
def exC9 : List MetaRow :=
  [⟨"m1", "team", "India"⟩, ⟨"m1", "team", "Australia"⟩,
   ⟨"m1", "umpire", "A Alpha"⟩, ⟨"m1", "umpire", "B Beta"⟩,
   ⟨"m1", "umpire", "C Gamma"⟩,
   ⟨"m1", "gender", "male"⟩, ⟨"m1", "season", "2024"⟩,
   ⟨"m1", "date", "2024-01-01"⟩, ⟨"m1", "event", "Series"⟩,
   ⟨"m1", "match_number", "1"⟩, ⟨"m1", "venue", "MCG"⟩,
   ⟨"m1", "city", "Melbourne"⟩, ⟨"m1", "balls_per_over", "6"⟩,
   ⟨"m1", "toss_winner", "India"⟩, ⟨"m1", "toss_decision", "bat"⟩,
   ⟨"m1", "player_of_match", "V Kohli"⟩]

/-- The pivoted cells of `exC9`. -/
def exC9cells : List MetaRow := metadataCells exC9

/-! ### Lemmas about substring tests -/

theorem isPrefixB_iff (p : List Char) : ∀ (l : List Char),
    isPrefixB p l = true ↔ p <+: l := by
  induction p with
  | nil => intro l; simp [isPrefixB]
  | cons a as ih =>
    intro l
    cases l with
    | nil => simp [isPrefixB]
    | cons b bs => simp [isPrefixB, List.cons_prefix_cons, ih bs, And.comm]

theorem isInfixB_iff (p : List Char) : ∀ (l : List Char),
    isInfixB p l = true ↔ p <:+: l := by
  intro l
  induction l with
  | nil =>
    cases p <;> simp [isInfixB, isPrefixB]
  | cons x xs ih =>
    simp [isInfixB, List.infix_cons_iff, isPrefixB_iff, ih]

/-- A string containing `"tdnb"` (case-insensitively) also contains `"dnb"`. -/
theorem containsCI_dnb_of_tdnb {s : String} (h : containsCI s "tdnb" = true) :
    containsCI s "dnb" = true := by
  have h4 : ['t', 'd', 'n', 'b'] <:+: s.data.map Char.toLower := by
    have := (isInfixB_iff _ _).mp (by simpa [containsCI] using h)
    simpa using this
  have h3 : ['d', 'n', 'b'] <:+: ['t', 'd', 'n', 'b'] :=
    ⟨['t'], [], by simp⟩
  have := h3.trans h4
  simpa [containsCI, isInfixB_iff]

/-! ### Helper lemmas for the pipeline functions -/

/-- A successful run of the reshaper produces exactly the derived rows. -/
theorem cleaning_ok_rows {rows : List Delivery} {out : List BBBRow}
    (h : cleaning_bbb_t20_cricsheet rows = Except.ok out) : out = cleanRows rows := by
  unfold cleaning_bbb_t20_cricsheet at h
  split at h
  · exact absurd h (by simp)
  · split at h
    · exact absurd h (by simp)
    · exact (Except.ok.inj h).symm

/-- Deduplication only removes rows. -/
theorem mem_dedupGo {r : MetaRow} :
    ∀ (seen : List (String × String)) (l : List MetaRow),
      r ∈ dedupGo seen l → r ∈ l := by
  intro seen l
  induction l generalizing seen with
  | nil => simp [dedupGo]
  | cons x xs ih =>
    intro h
    unfold dedupGo at h
    split at h
    · exact List.mem_cons_of_mem _ (ih _ h)
    · rcases List.mem_cons.mp h with h1 | h2
      · exact h1 ▸ List.mem_cons_self _ _
      · exact List.mem_cons_of_mem _ (ih _ h2)

/-- Evaluation of the banker's rounding at `10`. -/
theorem round2_ten : round2 10 = 10 := by
  have h : (10 : ℚ) * 100 = 1000 := by norm_num
  simp only [round2, roundHalfEven, h]
  rw [show ((1000 : ℚ).floor) = 1000 from rfl]
  norm_num

/-- Evaluation of the banker's rounding at `1`. -/
theorem round2_one : round2 1 = 1 := by
  have h : (1 : ℚ) * 100 = 100 := by norm_num
  simp only [round2, roundHalfEven, h]
  rw [show ((100 : ℚ).floor) = 100 from rfl]
  norm_num

/-- At `runs = 10`, `balls = 6`, reported economy `5`, the rounded
difference exceeds the threshold. -/
theorem econ_diff_large : |round2 ((10 : ℚ) / (6 / 6)) - 5| > economyThreshold := by
  rw [show (10 : ℚ) / (6 / 6) = 10 by norm_num, round2_ten]
  rw [show |(10 : ℚ) - 5| = 5 by rw [show (10 : ℚ) - 5 = 5 by norm_num]; exact abs_of_pos (by norm_num)]
  norm_num [economyThreshold]

/-- At `runs = 6`, `balls = 36`, reported economy `1.01`, the rounded
difference is within the threshold. -/
theorem econ_diff_small :
    |round2 ((6 : ℚ) / (36 / 6)) - 101 / 100| ≤ economyThreshold := by
  rw [show (6 : ℚ) / (36 / 6) = 1 by norm_num, round2_one]
  rw [show |(1 : ℚ) - 101 / 100| = 1 / 100 by
    rw [show (1 : ℚ) - 101 / 100 = -(1 / 100) by norm_num, abs_neg]
    exact abs_of_pos (by norm_num)]
  norm_num [economyThreshold]

/-! ### Claim theorems -/

/-- Claim C1, counterexample: for a row with `runs = 10`, `balls = 6` and
reported `economy = 5`, the recomputed economy is `10` and the rounded
difference `5` exceeds the threshold `0.05`, yet the code keeps the
reported value `5` — the claim asserts the recomputed value overrides the
reported one exactly in this case. -/
theorem C1_economy_counterexample :
    clean_bowling_economy 10 6 5 = 5 ∧
    (10 : ℚ) / (6 / 6) = 10 ∧
    |round2 ((10 : ℚ) / (6 / 6)) - 5| > economyThreshold := by
  refine ⟨?_, by norm_num, econ_diff_large⟩
  simp only [clean_bowling_economy]
  rw [if_pos econ_diff_large]

/-- Claim C1, amended: the reported economy is kept exactly when the
absolute difference between the rounded recomputed economy and the
reported value exceeds `0.05`; when the difference is at most `0.05` the
recomputed value `runs / (balls / 6)` overrides the reported one. -/
theorem C1_economy_override_amended :
    ∀ runs balls economy : ℚ,
      (|round2 (runs / (balls / 6)) - economy| > economyThreshold →
        clean_bowling_economy runs balls economy = economy) ∧
      (|round2 (runs / (balls / 6)) - economy| ≤ economyThreshold →
        clean_bowling_economy runs balls economy = runs / (balls / 6)) := by
  intro runs balls economy
  unfold clean_bowling_economy
  constructor
  · intro h
    rw [if_pos h]
  · intro h
    rw [if_neg (not_lt.mpr h)]

/-- Claim C1, witness for the amended statement at concrete rows. -/
theorem C1_economy_witness :
    clean_bowling_economy 10 6 5 = 5 ∧
    clean_bowling_economy 6 36 (101 / 100) = (6 : ℚ) / (36 / 6) :=
  ⟨(C1_economy_override_amended 10 6 5).1 econ_diff_large,
   (C1_economy_override_amended 6 36 (101 / 100)).2 econ_diff_small⟩

/-- Claim C2: on the input of the claim the classifier returns
`["b", "absent", "dnb", "dnb", "sub"]` — the value `"tdnb"` is classified
`"dnb"` (DID_NOT_BAT), not `"tdnb"` (TEAM_DID_NOT_BAT), because the
`"dnb"` substring check runs before the `"tdnb"` check and `"dnb"` is a
substring of `"tdnb"`; indeed no input whatsoever is classified
`"tdnb"`. -/
theorem C2_participation_tdnb_unreachable :
    participation_status [some "c Smith b Jones 45", some "absent", some "dnb",
      some "tdnb", some "c & b sub"] = ["b", "absent", "dnb", "dnb", "sub"] ∧
    ∀ v : Option String, (participation_status_value v == "tdnb") = false := by
  constructor
  · rfl
  · intro v
    cases v with
    | none => rfl
    | some s =>
      unfold participation_status_value
      by_cases h1 : containsCI s "absent" = true
      · simp [h1]
      · by_cases h2 : containsCI s "dnb" = true
        · simp [h1, h2]
        · by_cases h3 : containsCI s "tdnb" = true
          · exact absurd (containsCI_dnb_of_tdnb h3) h2
          · by_cases h4 : containsCI s "sub" = true
            · simp [h1, h2, h3, h4]
            · simp [h1, h2, h3, h4]

/-- Claim C3: for every country argument (in particular `"ENG"` with the
men's competition) the team-resolution code raises `TypeError`, whatever
the external fuzzy matcher would do: the candidate set
`map(str.lower, country_sex.keys())` applies `str.lower` to the integer
keys of the country table.  The claimed result `("England", 1)` is never
produced. -/
theorem C3_resolve_country_type_error :
    ∀ (matcher : String → List String → Option String) (country sex : String),
      resolve_country matcher country sex =
        Except.error "TypeError: descriptor lower requires a str object" := by
  intro matcher country sex
  unfold resolve_country
  by_cases h : (sex == "men") = true
  · rw [if_pos h]
    rfl
  · rw [if_neg h]
    rfl

/-- Claim C4, counterexample: the column `["1", "2", ""]` is coerced to the
float column `[1.0, 2.0, NaN]`, not to an integer column — `float.is_integer`
is false of `NaN`, so a column with a missing value is never narrowed. -/
theorem C4_coercion_counterexample :
    dtype_clean (PyCol.s [some "1", some "2", some ""]) =
      PyCol.f [some 1, some 2, none] ∧
    (dtype_clean (PyCol.s [some "1", some "2", some ""])).isIntCol = false := by
  refine ⟨by decide, by decide⟩

/-- Claim C4, amended: empty strings become missing and the remaining
values parse numerically, but the column `["1", "2", ""]` stays a float
column `[1.0, 2.0, <missing>]`: a float column containing a missing value
is never narrowed to integers (the narrowing applies only when every cell,
none missing, is mathematically integral, as for `["1", "2"]`). -/
theorem C4_coercion_amended :
    (∀ cells : List (Option ℚ), none ∈ cells →
      float_to_int (PyCol.f cells) = PyCol.f cells) ∧
    dtype_clean (PyCol.s [some "1", some "2", some ""]) =
      PyCol.f [some 1, some 2, none] ∧
    dtype_clean (PyCol.s [some "1", some "2"]) = PyCol.i [1, 2] := by
  refine ⟨?_, by decide, by decide⟩
  intro cells h
  have hall : cells.all cellIsInteger = false := by
    cases hc : cells.all cellIsInteger
    · rfl
    · exact absurd (List.all_eq_true.mp hc none h) (by simp [cellIsInteger])
  simp [float_to_int, hall]

/-- Claim C4, witness for the amended statement. -/
theorem C4_coercion_witness :
    float_to_int (PyCol.f [some 1, some 2, none]) = PyCol.f [some 1, some 2, none] :=
  C4_coercion_amended.1 [some 1, some 2, none] (by simp)

/-- Claim C5, counterexample: an input whose only match has one recorded
innings fails with `KeyError` (the reorder requires the `innings2_total`
column the pivot did not create) — the claim asserts the call completes;
and in a mixed input that does complete, the one-innings match `b1` has
missing `innings2_total` but a present `target` (its first-innings total
`5` plus one) — the claim asserts the target is missing. -/
theorem C5_reshaper_counterexample :
    cleaning_bbb_t20_cricsheet exC5single = Except.error "KeyError: innings2_total" ∧
    cleaning_bbb_t20_cricsheet exC5mixed = Except.ok exC5out ∧
    ((exC5out.filter (fun r => r.match_id == "b1")).all
      (fun r => r.innings2_total == none && r.target == some 6)) = true := by
  refine ⟨rfl, rfl, by decide⟩

/-- Claim C5, amended: the reshaper completes exactly on inputs where some
match has an innings-1 row and some match has an innings-2 row; a match
with fewer than two recorded innings then has missing `innings2_total`,
while its `target` is `innings1_total + 1` (present whenever the match has
a first innings); an input in which no match has a second innings fails
with a `KeyError` on `innings2_total` at the final column reorder. -/
theorem C5_reshaper_amended :
    (∀ rows : List Delivery,
      rows.any (fun r => r.innings == 1) = true →
      rows.any (fun r => r.innings == 2) = true →
      cleaning_bbb_t20_cricsheet rows = Except.ok (cleanRows rows)) ∧
    cleaning_bbb_t20_cricsheet exC5mixed = Except.ok exC5out ∧
    ((exC5out.filter (fun r => r.match_id == "b1")).all
      (fun r => r.innings2_total == none && r.target == some 6)) = true ∧
    cleaning_bbb_t20_cricsheet exC5single = Except.error "KeyError: innings2_total" := by
  refine ⟨?_, rfl, by decide, rfl⟩
  intro rows h1 h2
  unfold cleaning_bbb_t20_cricsheet
  rcases List.any_eq_true.mp h1 with ⟨r1, hr1, hi1⟩
  rcases List.any_eq_true.mp h2 with ⟨r2, hr2, hi2⟩
  have e1 : (rows.all fun r => !(r.innings == 1)) = false := by
    cases hall : rows.all fun r => !(r.innings == 1)
    · rfl
    · have := List.all_eq_true.mp hall r1 hr1
      rw [hi1] at this
      simp at this
  have e2 : (rows.all fun r => !(r.innings == 2)) = false := by
    cases hall : rows.all fun r => !(r.innings == 2)
    · rfl
    · have := List.all_eq_true.mp hall r2 hr2
      rw [hi2] at this
      simp at this
  rw [e1, e2]
  simp

/-- Claim C5, witness for the amended statement. -/
theorem C5_reshaper_witness :
    cleaning_bbb_t20_cricsheet exC5mixed = Except.ok (cleanRows exC5mixed) :=
  C5_reshaper_amended.1 exC5mixed (by decide) (by decide)

/-- Claim C6: in every successful reshaper output, every row's `target`
equals its `innings1_total` plus one (the merge broadcasts the match-level
first-innings total to every row of the match, whatever its innings); in
particular, for the match of `exC6` with innings totals 180 and 150, every
row has `target = 181`. -/
theorem C6_target_invariant :
    (∀ (rows : List Delivery) (out : List BBBRow) (r : BBBRow),
      cleaning_bbb_t20_cricsheet rows = Except.ok out → r ∈ out →
      r.target = r.innings1_total.map (· + 1)) ∧
    (exC6out.all (fun r => r.target == some 181)) = true := by
  constructor
  · intro rows out r hok hr
    rw [cleaning_ok_rows hok] at hr
    rcases List.mem_map.mp hr with ⟨⟨i, d⟩, _, rfl⟩
    simp [mkRow]
  · decide

/-- Claim C6, witness at the first row of the concrete match. -/
theorem C6_target_witness :
    exC6r0.target = exC6r0.innings1_total.map (· + 1) :=
  C6_target_invariant.1 exC6 exC6out exC6r0 rfl (by decide)

/-- Claim C7: in every successful reshaper output, a row of innings 1 or 2
has `balls_remaining = 120 − ((over − 1)·6 + ball_in_over)` and a row of
innings 3 or 4 has `balls_remaining = 6 − ball_in_over`; in particular six
consecutive legal deliveries in over 1 of innings 1 produce
`ball_in_over = [1..6]` and `balls_remaining = [119..114]`. -/
theorem C7_balls_remaining :
    (∀ (rows : List Delivery) (out : List BBBRow) (r : BBBRow),
      cleaning_bbb_t20_cricsheet rows = Except.ok out → r ∈ out →
      ((r.innings = 1 ∨ r.innings = 2) →
        r.balls_remaining = 120 - ((r.over - 1) * 6 + r.ball_in_over)) ∧
      ((r.innings = 3 ∨ r.innings = 4) →
        r.balls_remaining = 6 - r.ball_in_over)) ∧
    ((exC7out.filter (fun r => r.innings == 1)).map (fun r => r.ball_in_over) =
      [1, 2, 3, 4, 5, 6]) ∧
    ((exC7out.filter (fun r => r.innings == 1)).map (fun r => r.balls_remaining) =
      [119, 118, 117, 116, 115, 114]) := by
  refine ⟨?_, by decide, by decide⟩
  intro rows out r hok hr
  rw [cleaning_ok_rows hok] at hr
  rcases List.mem_map.mp hr with ⟨⟨i, d⟩, _, rfl⟩
  constructor
  · intro h12
    have : (d.innings == 1 || d.innings == 2) = true := by
      rcases h12 with h | h <;> simp [mkRow] at h <;> simp [h]
    simp [mkRow, this]
  · intro h34
    have : (d.innings == 1 || d.innings == 2) = false := by
      rcases h34 with h | h <;> simp [mkRow] at h <;> simp [h]
    simp [mkRow, this]

/-- Claim C7, witness at the first row of the concrete innings. -/
theorem C7_balls_remaining_witness :
    exC7r0.balls_remaining = 120 - ((exC7r0.over - 1) * 6 + exC7r0.ball_in_over) :=
  (C7_balls_remaining.1 exC7 exC7out exC7r0 rfl (by decide)).1 (by decide)

/-- Claim C8, counterexample: the token `"IntWnND"` matches the rule
`IntWn → International XI`, but canonicalization is not idempotent on it:
the first pass yields `"International XIND"`, whose tail `"XIND"` now
matches the earlier rule `IND → India`, so the second pass yields
`"International XIndia"`. -/
theorem C8_idempotence_counterexample :
    matchesSomeRule "IntWnND" = true ∧
    rename_country "IntWnND" = "International XIND" ∧
    rename_country (rename_country "IntWnND") = "International XIndia" ∧
    (rename_country (rename_country "IntWnND") == rename_country "IntWnND") = false := by
  refine ⟨by decide, by decide, by decide, by decide⟩

set_option maxHeartbeats 4000000 in
/-- Claim C8, amended: canonicalization is idempotent on every token that
exactly equals one of the literal trigger alternatives of the rule table
(each such token matches its rule); for general tokens that merely contain
a trigger the property can fail, as the counterexample shows. -/
theorem C8_idempotence_amended :
    (triggerTokens.all (fun t => matchesSomeRule t)) = true ∧
    (triggerTokens.all (fun t =>
      rename_country (rename_country t) == rename_country t)) = true := by
  refine ⟨by decide, by decide⟩

/-- Claim C9: in every successful pivot the key `umpire3` is absent (team
and umpire rows are renumbered by per-match occurrence order starting at 1
and the `umpire3` row is dropped); in particular the concrete match with
team rows `India`, `Australia` pivots to `team1 = India`,
`team2 = Australia`, its third umpire value appears nowhere in the output,
and the `umpire3` cell is empty. -/
theorem C9_metadata_pivot :
    (∀ (rows cells : List MetaRow),
      process_match_metadata rows = Except.ok cells →
      (cells.all (fun r => !(r.key == "umpire3"))) = true) ∧
    process_match_metadata exC9 = Except.ok exC9cells ∧
    pivotGet exC9cells "m1" "team1" = some "India" ∧
    pivotGet exC9cells "m1" "team2" = some "Australia" ∧
    pivotGet exC9cells "m1" "umpire3" = none ∧
    (exC9cells.all (fun r => !(r.value == "C Gamma"))) = true := by
  refine ⟨?_, rfl, by decide, by decide, by decide, by decide⟩
  intro rows cells hok
  have hc : cells = metadataCells rows := by
    simp only [process_match_metadata] at hok
    by_cases hcols :
        (requiredMetaCols.all fun c => (metadataCells rows).any fun r => r.key == c) = true
    · rw [if_pos hcols] at hok
      exact (Except.ok.inj hok).symm
    · rw [if_neg hcols] at hok
      exact absurd hok (by simp)
  subst hc
  rw [List.all_eq_true]
  intro r hr
  have hin := mem_dedupGo _ _ hr
  have := (List.mem_filter.mp hin).2
  simpa using this

/-- Claim C9, witness at the concrete match. -/
theorem C9_metadata_pivot_witness :
    (exC9cells.all (fun r => !(r.key == "umpire3"))) = true :=
  C9_metadata_pivot.1 exC9 exC9cells rfl

/-- Claim C10: `process_metadata` always takes the player-extraction path,
whatever data type the caller requested: its branch condition compares the
Python builtin `type` with the string `"match"`, which is false, so the
`process_match_metadata` branch is unreachable from it. -/
theorem C10_process_metadata_dead_branch :
    ∀ (requestedType : String) (rows : List InfoRow),
      process_metadata requestedType rows =
        MetaResult.playerTable (extract_players rows) := by
  intro requestedType rows
  rfl

end Cricketpy
